import Mathlib

/-!
Shallow embedding of the blog application in `src/main.py`: a Flask app with
three SQLAlchemy tables (users, blog_posts, comments), flask-login sessions,
an `admin_only` decorator, and nine routes.  Pure state-passing model: each
handler maps an application state, a session and the request data to a new
state, a new session, a response and a list of flash messages.
-/

/-- HTTP request method.  Only GET and POST occur in this application's
routing table. -/
inductive Method
  | GET
  | POST
deriving DecidableEq, Repr

/-- Modelled from the spec: the password-hash primitive
(werkzeug `generate_password_hash` / `check_password_hash`, an external
collaborator, not part of this repository) is a keyed hashing scheme with a
randomized salt component.  The derived key of the ideal derivation function
is represented by the (salt, password) pair it is computed from; verification
recomputes the derivation from the stored salt and compares. -/
def pbkdf2_sha256 (salt : String) (rawPassword : String) : String × String :=
  (salt, rawPassword)

/-- A stored password hash: the hashing method tag, the random salt, and the
derived key (see `pbkdf2_sha256`). -/
structure PasswordHash where
  method : String
  salt : String
  key : String × String
deriving DecidableEq, Repr

/-- Modelled from the spec: werkzeug `generate_password_hash(pw,
method='pbkdf2:sha256', salt_length=8)`.  The randomized salt is passed in
explicitly to keep the function deterministic. -/
def generate_password_hash (rawPassword : String) (salt : String) : PasswordHash :=
  { method := "pbkdf2:sha256", salt := salt, key := pbkdf2_sha256 salt rawPassword }

/-- Modelled from the spec: werkzeug `check_password_hash` re-derives the key
from the stored salt and the submitted password and compares it with the
stored key. -/
def check_password_hash (pwhash : PasswordHash) (rawPassword : String) : Bool :=
  pwhash.key == pbkdf2_sha256 pwhash.salt rawPassword

/-- A row of the `users` table (class `User` in `src/main.py`). -/
structure User where
  id : Nat
  email : String
  password : PasswordHash
  name : String
deriving DecidableEq, Repr

/-- The value held by the `author` relationship / `author_id` column of a
blog post.  Python is dynamically typed: `add_new_post` assigns a `User`
object, while the dead submit branch of `edit_post` assigns the raw string of
the form's author field; a freshly constructed row holds neither. -/
inductive AuthorField
  | user (id : Nat)
  | formText (s : String)
  | unset
deriving DecidableEq, Repr

/-- A row of the `blog_posts` table (class `BlogPost` in `src/main.py`). -/
structure BlogPost where
  id : Nat
  author : AuthorField
  title : String
  subtitle : String
  date : String
  body : String
  img_url : String
deriving DecidableEq, Repr

/-- A row of the `comments` table (class `Comment` in `src/main.py`).
`post_id` is `none` when `parent_post` was assigned `None`. -/
structure Comment where
  id : Nat
  author_id : Option Nat
  post_id : Option Nat
  text : String
deriving DecidableEq, Repr

/-- The durable store: the three tables, plus the autoincrement counters the
store uses to assign primary keys on insert. -/
structure AppState where
  users : List User
  posts : List BlogPost
  comments : List Comment
  next_user_id : Nat
  next_post_id : Nat
  next_comment_id : Nat
deriving DecidableEq, Repr

/-- A flask-login session: either anonymous or the id of the logged-in user. -/
abbrev Session := Option Nat

/-- The response a handler produces. `internalError` stands for an unhandled
Python exception escaping the handler. -/
inductive Response
  | render (template : String)
  | redirect (target : String)
  | forbidden
  | methodNotAllowed
  | internalError (msg : String)
deriving DecidableEq, Repr

/-- What one request produces: the store afterwards, the session afterwards,
the response, and the flash messages emitted during the request. -/
structure HandlerResult where
  state : AppState
  session : Session
  response : Response
  flashes : List String
deriving DecidableEq, Repr

/-- flask-login `current_user`, via the `load_user` user loader in
`src/main.py`: an anonymous session yields none, otherwise the user row with
the session's id is looked up with `User.query.get`. -/
def current_user (st : AppState) (sess : Session) : Option User :=
  match sess with
  | none => none
  | some uid => st.users.find? (fun u => u.id == uid)

/-- Modelled from the spec: form validation is delegated to the external
WTForms collaborator (`forms.py` is part of this repository but absent from
`src/`).  `validate_on_submit` is true only when the request method is a
submit method (POST here) and the submitted form data validates; on a GET
request it is always false.  The validation outcome is passed in as `valid`. -/
def validate_on_submit (method : Method) (valid : Bool) : Bool :=
  match method with
  | Method.POST => valid
  | Method.GET => false

/-- Modelled from the spec: the registration form of `forms.py` (email,
name, password fields). -/
structure RegisterForm where
  email : String
  name : String
  password : String
deriving DecidableEq, Repr

/-- Modelled from the spec: the login form of `forms.py` (email, password). -/
structure LoginForm where
  email : String
  password : String
deriving DecidableEq, Repr

/-- Modelled from the spec: the comment form of `forms.py`
(`comment_text` field). -/
structure CommentForm where
  comment_text : String
deriving DecidableEq, Repr

/-- Modelled from the spec: the post form of `forms.py` (title, subtitle,
body, image URL and author fields, all strings). -/
structure CreatePostForm where
  title : String
  subtitle : String
  body : String
  img_url : String
  author : String
deriving DecidableEq, Repr

/-- The `admin_only` decorator of `src/main.py`: if the current user is not
authenticated or its id is not 1, abort with 403 and never run the wrapped
handler; otherwise run it. -/
def admin_only (f : AppState → Session → HandlerResult) (st : AppState) (sess : Session) :
    HandlerResult :=
  match current_user st sess with
  | none => { state := st, session := sess, response := Response.forbidden, flashes := [] }
  | some u =>
    if u.id ≠ 1 then
      { state := st, session := sess, response := Response.forbidden, flashes := [] }
    else f st sess

/-- The spec's `requireAdmin` predicate: the session is authenticated and the
current user's id equals 1. -/
def is_admin (st : AppState) (sess : Session) : Bool :=
  match current_user st sess with
  | none => false
  | some u => u.id == 1

/-- The `/` handler: the listing it renders is all posts of the store
(`BlogPost.query.all()`). -/
def get_all_posts (st : AppState) : List BlogPost :=
  st.posts

/-- The `/register` handler.  On a validated submit: if a user with the
submitted email already exists, flash a notice and redirect to login;
otherwise persist a new user with a salted hash of the submitted password,
log the new user in, and redirect to the listing.  Otherwise render the
registration form. -/
def register (form : RegisterForm) (method : Method) (valid : Bool) (salt : String)
    (st : AppState) (sess : Session) : HandlerResult :=
  if validate_on_submit method valid then
    match st.users.find? (fun u => u.email == form.email) with
    | some _ =>
      { state := st, session := sess, response := Response.redirect "login",
        flashes := ["You have already signed up with that email, log in instead!"] }
    | none =>
      let hash_and_salted_password := generate_password_hash form.password salt
      let new_user : User :=
        { id := st.next_user_id, email := form.email,
          password := hash_and_salted_password, name := form.name }
      { state := { st with users := st.users ++ [new_user],
                           next_user_id := st.next_user_id + 1 },
        session := some new_user.id,
        response := Response.redirect "get_all_posts", flashes := [] }
  else
    { state := st, session := sess, response := Response.render "register.html", flashes := [] }

/-- The `/login` handler.  On a validated submit: no user with the email
flashes the unknown-email notice and redirects back to login; a failing
password check flashes the bad-password notice and redirects back to login;
otherwise the user is logged in and redirected to the listing. -/
def login (form : LoginForm) (method : Method) (valid : Bool)
    (st : AppState) (sess : Session) : HandlerResult :=
  if validate_on_submit method valid then
    match st.users.find? (fun u => u.email == form.email) with
    | none =>
      { state := st, session := sess, response := Response.redirect "login",
        flashes := ["That email doses not exist, please try again."] }
    | some user =>
      if check_password_hash user.password form.password = false then
        { state := st, session := sess, response := Response.redirect "login",
          flashes := ["Password incorrect, please try again."] }
      else
        { state := st, session := some user.id,
          response := Response.redirect "get_all_posts", flashes := [] }
  else
    { state := st, session := sess, response := Response.render "login.html", flashes := [] }

/-- The `/logout` handler: clear the session, redirect to the listing. -/
def logout (st : AppState) (_sess : Session) : HandlerResult :=
  { state := st, session := none, response := Response.redirect "get_all_posts", flashes := [] }

/-- The `/post/<post_id>` handler.  Fetch the post by id; on a validated
comment submit: an anonymous session is flashed a notice and redirected to
login, an authenticated one gets a new comment persisted whose author is the
current user and whose parent post is the fetched post (None included);
finally render the post page. -/
def show_post (post_id : Nat) (form : CommentForm) (method : Method) (valid : Bool)
    (st : AppState) (sess : Session) : HandlerResult :=
  let requested_post := st.posts.find? (fun p => p.id == post_id)
  if validate_on_submit method valid then
    match current_user st sess with
    | none =>
      { state := st, session := sess, response := Response.redirect "login",
        flashes := ["You need to login or register to comment."] }
    | some u =>
      let new_comment : Comment :=
        { id := st.next_comment_id, author_id := some u.id,
          post_id := requested_post.map (fun p => p.id), text := form.comment_text }
      { state := { st with comments := st.comments ++ [new_comment],
                           next_comment_id := st.next_comment_id + 1 },
        session := sess, response := Response.render "post.html", flashes := [] }
  else
    { state := st, session := sess, response := Response.render "post.html", flashes := [] }

/-- The body of the `/new-post` handler (inside `admin_only`).  On a
validated submit, persist a new post authored by the current user and dated
with today's formatted date, then redirect to the listing; otherwise render
the post form.  An anonymous `current_user` here would make the store flush
fail (unreachable under the decorator). -/
def add_new_post_body (form : CreatePostForm) (method : Method) (valid : Bool) (today : String)
    (st : AppState) (sess : Session) : HandlerResult :=
  if validate_on_submit method valid then
    match current_user st sess with
    | some u =>
      let new_post : BlogPost :=
        { id := st.next_post_id, author := AuthorField.user u.id,
          title := form.title, subtitle := form.subtitle,
          date := today, body := form.body, img_url := form.img_url }
      { state := { st with posts := st.posts ++ [new_post],
                           next_post_id := st.next_post_id + 1 },
        session := sess, response := Response.redirect "get_all_posts", flashes := [] }
    | none =>
      { state := st, session := sess,
        response := Response.internalError "anonymous current_user flushed as author",
        flashes := [] }
  else
    { state := st, session := sess, response := Response.render "make-post.html", flashes := [] }

/-- The `/new-post` handler: `add_new_post_body` wrapped in `admin_only`. -/
def add_new_post (form : CreatePostForm) (method : Method) (valid : Bool) (today : String) :
    AppState → Session → HandlerResult :=
  admin_only (add_new_post_body form method valid today)

/-- Replace the record the store fetched for this primary key — the first row
whose id matches — by its image under `f`, leaving every other row as it is
(the in-place mutation of a fetched SQLAlchemy object, followed by commit). -/
def update_post (l : List BlogPost) (pid : Nat) (f : BlogPost → BlogPost) : List BlogPost :=
  match l with
  | [] => []
  | p :: rest => if p.id == pid then f p :: rest else p :: update_post rest pid f

/-- The body of the `/edit-post/<post_id>` handler (inside `admin_only`).
`BlogPost.query.get` fetches the post; when there is no such row the handler
dereferences `None` while pre-populating the form (`post.title`) and raises
an unhandled `AttributeError`.  On a validated submit it mutates the five
editable fields in place — the author field receives the raw form string —
and redirects to the post page; otherwise it renders the pre-populated
form. -/
def edit_post_body (post_id : Nat) (form : CreatePostForm) (method : Method) (valid : Bool)
    (st : AppState) (sess : Session) : HandlerResult :=
  match st.posts.find? (fun p => p.id == post_id) with
  | none =>
    { state := st, session := sess,
      response := Response.internalError "AttributeError: NoneType has no attribute title",
      flashes := [] }
  | some post =>
    if validate_on_submit method valid then
      { state := { st with posts := update_post st.posts post_id (fun p =>
          { p with title := form.title, subtitle := form.subtitle,
                   img_url := form.img_url, author := AuthorField.formText form.author,
                   body := form.body }) },
        session := sess,
        response := Response.redirect ("show_post/" ++ toString post.id), flashes := [] }
    else
      { state := st, session := sess, response := Response.render "make-post.html",
        flashes := [] }

/-- The `/edit-post/<post_id>` handler: `edit_post_body` wrapped in
`admin_only`. -/
def edit_post (post_id : Nat) (form : CreatePostForm) (method : Method) (valid : Bool) :
    AppState → Session → HandlerResult :=
  admin_only (edit_post_body post_id form method valid)

/-- Flask routing for `/edit-post/<post_id>`: the route decorator passes no
`methods` argument, so the rule accepts only GET; a POST is answered 405 by
the framework and the handler never runs. -/
def edit_post_route (post_id : Nat) (form : CreatePostForm) (method : Method) (valid : Bool)
    (st : AppState) (sess : Session) : HandlerResult :=
  match method with
  | Method.POST =>
    { state := st, session := sess, response := Response.methodNotAllowed, flashes := [] }
  | Method.GET => edit_post post_id form Method.GET valid st sess

/-- The body of the `/delete/<post_id>` handler (inside `admin_only`).
`BlogPost.query.get` fetches the post; when there is no such row,
`db.session.delete(None)` raises an unhandled error.  Otherwise the fetched
row — the first row with that id — is deleted and the caller redirected to
the listing. -/
def delete_post_body (post_id : Nat) (st : AppState) (sess : Session) : HandlerResult :=
  match st.posts.find? (fun p => p.id == post_id) with
  | none =>
    { state := st, session := sess,
      response := Response.internalError "UnmappedInstanceError: NoneType is not mapped",
      flashes := [] }
  | some _ =>
    { state := { st with posts := st.posts.eraseP (fun p => p.id == post_id) },
      session := sess, response := Response.redirect "get_all_posts", flashes := [] }

/-- The `/delete/<post_id>` handler: `delete_post_body` wrapped in
`admin_only`. -/
def delete_post (post_id : Nat) : AppState → Session → HandlerResult :=
  admin_only (delete_post_body post_id)

/-! Helper lemmas. -/

/-- When the session is not an authenticated admin, `admin_only` aborts with
403 and leaves store and session untouched. -/
theorem admin_only_not_admin (f : AppState → Session → HandlerResult)
    (st : AppState) (sess : Session) (h : is_admin st sess = false) :
    admin_only f st sess =
      { state := st, session := sess, response := Response.forbidden, flashes := [] } := by
  unfold admin_only is_admin at *
  cases hcu : current_user st sess with
  | none => simp [hcu]
  | some u =>
    rw [hcu] at h
    simp only [beq_eq_false_iff_ne] at h
    simp [hcu, h]

/-- When the session is an authenticated admin, `admin_only` runs the wrapped
handler. -/
theorem admin_only_admin (f : AppState → Session → HandlerResult)
    (st : AppState) (sess : Session) (h : is_admin st sess = true) :
    admin_only f st sess = f st sess := by
  unfold admin_only is_admin at *
  cases hcu : current_user st sess with
  | none => rw [hcu] at h; simp at h
  | some u =>
    rw [hcu] at h
    simp only [beq_iff_eq] at h
    simp [hcu, h]

/-- If a predicate finds nothing in the front list, searching the
concatenation searches the back list. -/
theorem find?_append_none {α : Type} (p : α → Bool) (l1 l2 : List α)
    (h : l1.find? p = none) : (l1 ++ l2).find? p = l2.find? p := by
  induction l1 with
  | nil => simp
  | cons a l ih =>
    rw [List.find?_cons] at h
    cases hp : p a with
    | true => rw [hp] at h; simp at h
    | false =>
      rw [hp] at h
      simpa [List.find?_cons, hp] using ih h

/-- `update_post` rewrites the fetched record: if the search found `post`,
it finds `f post` afterwards, provided `f` keeps the id. -/
theorem find?_update_post (l : List BlogPost) (pid : Nat) (f : BlogPost → BlogPost)
    (hf : ∀ p, (f p).id = p.id) (post : BlogPost)
    (h : l.find? (fun p => p.id == pid) = some post) :
    (update_post l pid f).find? (fun p => p.id == pid) = some (f post) := by
  induction l with
  | nil => simp at h
  | cons a l ih =>
    rw [List.find?_cons] at h
    cases ha : (a.id == pid) with
    | true =>
      rw [ha] at h
      injection h with h
      subst h
      have hfa : ((f a).id == pid) = true := by rw [hf a]; exact ha
      simp [update_post, ha, List.find?_cons, hfa]
    | false =>
      rw [ha] at h
      simp [update_post, ha, List.find?_cons, ih h]

/-- After erasing the first record with a given id from a list whose ids are
pairwise distinct, no record with that id remains. -/
theorem find?_eraseP_nodup (l : List BlogPost) (pid : Nat)
    (hnd : (l.map (fun p => p.id)).Nodup) :
    (l.eraseP (fun p => p.id == pid)).find? (fun p => p.id == pid) = none := by
  induction l with
  | nil => simp
  | cons a l ih =>
    rw [List.map_cons, List.nodup_cons] at hnd
    cases ha : (a.id == pid) with
    | true =>
      simp only [List.eraseP_cons, ha, cond_true]
      simp only [beq_iff_eq] at ha
      rw [List.find?_eq_none]
      intro x hx
      simp only [beq_iff_eq]
      intro hxid
      exact hnd.1 (by rw [ha, ← hxid]; exact List.mem_map_of_mem (fun p => p.id) hx)
    | false =>
      simp only [List.eraseP_cons, ha, cond_false]
      rw [List.find?_cons_of_neg _ (by simp [ha])]
      exact ih hnd.2

/-! Concrete fixtures used by the witnesses. -/

/-- The first registered account: id 1, the distinguished admin. -/
def adminUser : User :=
  { id := 1, email := "ann@blog.test", password := generate_password_hash "adminpw" "saltA",
    name := "Ann" }

/-- A second, non-admin account. -/
def otherUser : User :=
  { id := 2, email := "bob@blog.test", password := generate_password_hash "bobpw" "saltB",
    name := "Bob" }

/-- One stored post, authored by the admin. -/
def samplePost : BlogPost :=
  { id := 1, author := AuthorField.user 1, title := "First", subtitle := "Sub",
    date := "May 01, 2021", body := "Body", img_url := "http://img" }

/-- A store holding both users and the one post. -/
def sampleState : AppState :=
  { users := [adminUser, otherUser], posts := [samplePost], comments := [],
    next_user_id := 3, next_post_id := 2, next_comment_id := 1 }

/-- A filled-in post form. -/
def sampleForm : CreatePostForm :=
  { title := "New title", subtitle := "New sub", body := "New body",
    img_url := "http://img2", author := "Ann B" }

/-! The claims. -/

/-- C7: a password hash produced at registration verifies against the
original plaintext and against no other plaintext. -/
theorem claim_C7_hash_roundtrip (salt pw other : String) (h : other ≠ pw) :
    check_password_hash (generate_password_hash pw salt) pw = true ∧
    check_password_hash (generate_password_hash pw salt) other = false := by
  unfold check_password_hash generate_password_hash pbkdf2_sha256
  constructor
  · simp
  · simp only [beq_eq_false_iff_ne, ne_eq, Prod.mk.injEq, not_and]
    intro _
    exact fun hpw => h hpw.symm

/-- Witness for C7 at concrete strings. -/
theorem claim_C7_hash_roundtrip_witness :
    "letmein" ≠ "hunter2" ∧
    (check_password_hash (generate_password_hash "hunter2" "s8chars") "hunter2" = true ∧
     check_password_hash (generate_password_hash "hunter2" "s8chars") "letmein" = false) :=
  ⟨by decide, claim_C7_hash_roundtrip "s8chars" "hunter2" "letmein" (by decide)⟩

/-- C9: the edit-post route is registered for GET only, so the submit branch
of the handler is unreachable and no request through the route ever changes
the store (or the session). -/
theorem claim_C9_edit_route_get_only (post_id : Nat) (form : CreatePostForm)
    (method : Method) (valid : Bool) (st : AppState) (sess : Session) :
    (edit_post_route post_id form method valid st sess).state = st := by
  cases method with
  | POST => rfl
  | GET =>
    show (admin_only (edit_post_body post_id form Method.GET valid) st sess).state = st
    unfold admin_only
    cases hcu : current_user st sess with
    | none => rfl
    | some u =>
      show (if u.id ≠ 1 then
              { state := st, session := sess, response := Response.forbidden, flashes := [] }
            else edit_post_body post_id form Method.GET valid st sess).state = st
      by_cases hid : u.id ≠ 1
      · rw [if_pos hid]
      · rw [if_neg hid]
        unfold edit_post_body
        cases hp : st.posts.find? (fun p => p.id == post_id) with
        | none => rfl
        | some post => rfl

/-- C1: the create/edit/delete handlers run their bodies only for an
authenticated session whose user id is 1; every other session receives a 403
with the store untouched, and an admin session is never answered 403. -/
theorem claim_C1_admin_gate (st : AppState) (sess : Session) (form : CreatePostForm)
    (method : Method) (valid : Bool) (today : String) (pid pid2 : Nat) :
    (is_admin st sess = false →
      ((add_new_post form method valid today st sess).response = Response.forbidden ∧
       (add_new_post form method valid today st sess).state = st) ∧
      ((edit_post pid form method valid st sess).response = Response.forbidden ∧
       (edit_post pid form method valid st sess).state = st) ∧
      ((delete_post pid2 st sess).response = Response.forbidden ∧
       (delete_post pid2 st sess).state = st)) ∧
    (is_admin st sess = true →
      (add_new_post form method valid today st sess).response ≠ Response.forbidden ∧
      (edit_post pid form method valid st sess).response ≠ Response.forbidden ∧
      (delete_post pid2 st sess).response ≠ Response.forbidden) := by
  constructor
  · intro h
    rw [add_new_post, edit_post, delete_post,
        admin_only_not_admin _ _ _ h, admin_only_not_admin _ _ _ h,
        admin_only_not_admin _ _ _ h]
    exact ⟨⟨rfl, rfl⟩, ⟨rfl, rfl⟩, ⟨rfl, rfl⟩⟩
  · intro h
    rw [add_new_post, edit_post, delete_post,
        admin_only_admin _ _ _ h, admin_only_admin _ _ _ h, admin_only_admin _ _ _ h]
    refine ⟨?_, ?_, ?_⟩
    · unfold add_new_post_body
      cases hv : validate_on_submit method valid
      · simp
      · cases hcu : current_user st sess <;> simp
    · unfold edit_post_body
      cases hp : st.posts.find? (fun p => p.id == pid)
      · simp
      · cases hv : validate_on_submit method valid <;> simp
    · unfold delete_post_body
      cases hp : st.posts.find? (fun p => p.id == pid2)
      · simp
      · simp

/-- Witness for C1: with the sample store, Bob's session gets 403 from the
delete handler while Ann's (id 1) does not. -/
theorem claim_C1_admin_gate_witness :
    (is_admin sampleState (some 2) = false ∧
     (delete_post 1 sampleState (some 2)).response = Response.forbidden) ∧
    (is_admin sampleState (some 1) = true ∧
     (delete_post 1 sampleState (some 1)).response ≠ Response.forbidden) :=
  ⟨⟨by decide,
    (((claim_C1_admin_gate sampleState (some 2) sampleForm Method.POST true "d" 1 1).1
      (by decide)).2.2).1⟩,
   ⟨by decide,
    ((claim_C1_admin_gate sampleState (some 1) sampleForm Method.POST true "d" 1 1).2
      (by decide)).2.2⟩⟩

/-- C3: on a submitted login form, an unknown email fails with the
unknown-email notice, a known email with a non-verifying password fails with
the bad-password notice — in both cases the session is left as it was — and
only a verifying password authenticates the session as that user. -/
theorem claim_C3_login_outcomes (st : AppState) (sess : Session) (form : LoginForm) :
    (st.users.find? (fun u => u.email == form.email) = none →
      (login form Method.POST true st sess).response = Response.redirect "login" ∧
      (login form Method.POST true st sess).session = sess ∧
      (login form Method.POST true st sess).flashes =
        ["That email doses not exist, please try again."]) ∧
    (∀ user, st.users.find? (fun u => u.email == form.email) = some user →
      (check_password_hash user.password form.password = false →
        (login form Method.POST true st sess).response = Response.redirect "login" ∧
        (login form Method.POST true st sess).session = sess ∧
        (login form Method.POST true st sess).flashes =
          ["Password incorrect, please try again."]) ∧
      (check_password_hash user.password form.password = true →
        (login form Method.POST true st sess).session = some user.id ∧
        (login form Method.POST true st sess).response = Response.redirect "get_all_posts")) := by
  refine ⟨?_, ?_⟩
  · intro h
    simp [login, validate_on_submit, h]
  · intro user hu
    refine ⟨?_, ?_⟩
    · intro hbad
      simp [login, validate_on_submit, hu, hbad]
    · intro hok
      simp [login, validate_on_submit, hu, hok]

/-- Witness for C3: in the sample store, a wrong email fails, Bob's email
with a wrong password fails without touching the session, and Bob's email
with his password authenticates as Bob. -/
theorem claim_C3_login_outcomes_witness :
    (sampleState.users.find? (fun u => u.email == "zoe@blog.test") = none ∧
     (login ⟨"zoe@blog.test", "bobpw"⟩ Method.POST true sampleState none).response =
       Response.redirect "login") ∧
    (sampleState.users.find? (fun u => u.email == "bob@blog.test") = some otherUser ∧
     check_password_hash otherUser.password "wrong" = false ∧
     (login ⟨"bob@blog.test", "wrong"⟩ Method.POST true sampleState none).session = none) ∧
    (check_password_hash otherUser.password "bobpw" = true ∧
     (login ⟨"bob@blog.test", "bobpw"⟩ Method.POST true sampleState none).session = some 2) :=
  ⟨⟨by decide,
    ((claim_C3_login_outcomes sampleState none ⟨"zoe@blog.test", "bobpw"⟩).1 (by decide)).1⟩,
   ⟨by decide, by decide,
    (((claim_C3_login_outcomes sampleState none ⟨"bob@blog.test", "wrong"⟩).2 otherUser
        (by decide)).1 (by decide)).2.1⟩,
   ⟨by decide,
    (((claim_C3_login_outcomes sampleState none ⟨"bob@blog.test", "bobpw"⟩).2 otherUser
        (by decide)).2 (by decide)).1⟩⟩

/-- C4: a validated comment submission from an anonymous session persists
nothing and redirects toward login with a notice; from an authenticated
session it persists exactly one new comment authored by the current user and
attached to the fetched post. -/
theorem claim_C4_comment_requires_auth (st : AppState) (sess : Session) (post_id : Nat)
    (form : CommentForm) (method : Method) (valid : Bool)
    (hv : validate_on_submit method valid = true) :
    (current_user st sess = none →
      (show_post post_id form method valid st sess).state = st ∧
      (show_post post_id form method valid st sess).response = Response.redirect "login" ∧
      (show_post post_id form method valid st sess).flashes =
        ["You need to login or register to comment."]) ∧
    (∀ u, current_user st sess = some u →
      (show_post post_id form method valid st sess).state.comments =
        st.comments ++ [{ id := st.next_comment_id, author_id := some u.id,
                          post_id := (st.posts.find? (fun p => p.id == post_id)).map
                            (fun p => p.id),
                          text := form.comment_text }]) := by
  refine ⟨?_, ?_⟩
  · intro h
    simp [show_post, hv, h]
  · intro u hu
    simp [show_post, hv, hu]

/-- Witness for C4: an anonymous submission on the sample store changes
nothing and is sent to login. -/
theorem claim_C4_comment_requires_auth_witness :
    validate_on_submit Method.POST true = true ∧
    (current_user sampleState none = none ∧
     (show_post 1 ⟨"hi"⟩ Method.POST true sampleState none).state = sampleState ∧
     (show_post 1 ⟨"hi"⟩ Method.POST true sampleState none).response =
       Response.redirect "login") :=
  ⟨rfl,
   by
     have h := (claim_C4_comment_requires_auth sampleState none 1 ⟨"hi"⟩ Method.POST true rfl).1
       (by decide)
     exact ⟨by decide, h.1, h.2.1⟩⟩

/-- C10: an authenticated comment submission at a post id with no matching
post commits a comment whose parent-post reference is None, so it resolves
to no stored post. -/
theorem claim_C10_orphan_comment (st : AppState) (sess : Session) (pid : Nat)
    (form : CommentForm) (method : Method) (valid : Bool) (u : User)
    (hu : current_user st sess = some u)
    (hv : validate_on_submit method valid = true)
    (hpost : st.posts.find? (fun p => p.id == pid) = none) :
    (show_post pid form method valid st sess).state.comments =
      st.comments ++ [{ id := st.next_comment_id, author_id := some u.id,
                        post_id := none, text := form.comment_text }] ∧
    (show_post pid form method valid st sess).response = Response.render "post.html" := by
  constructor <;> simp [show_post, hv, hu, hpost]

/-- Witness for C10: Bob comments at the absent post id 99 and an orphan
comment is committed. -/
theorem claim_C10_orphan_comment_witness :
    (sampleState.posts.find? (fun p => p.id == 99) = none ∧
     current_user sampleState (some 2) = some otherUser) ∧
    (show_post 99 ⟨"orphan"⟩ Method.POST true sampleState (some 2)).state.comments =
      sampleState.comments ++ [{ id := sampleState.next_comment_id,
                                 author_id := some otherUser.id,
                                 post_id := none, text := "orphan" }] :=
  ⟨⟨by decide, by decide⟩,
   (claim_C10_orphan_comment sampleState (some 2) 99 ⟨"orphan"⟩ Method.POST true otherUser
      (by decide) rfl (by decide)).1⟩

/-- An authenticated session whose user has id 1 satisfies the admin check. -/
theorem is_admin_of_current (st : AppState) (sess : Session) (u : User)
    (hu : current_user st sess = some u) (hadmin : u.id = 1) : is_admin st sess = true := by
  unfold is_admin
  rw [hu]
  simp [hadmin]

/-- C5: a validated submission of the edit form by the admin rewrites exactly
the five editable fields of the fetched post — title, subtitle, image URL,
author, body — keeping its id and date, and touches neither the comments nor
the users table. -/
theorem claim_C5_edit_changes_five_fields (st : AppState) (sess : Session) (pid : Nat)
    (form : CreatePostForm) (u : User) (post : BlogPost)
    (hu : current_user st sess = some u) (hadmin : u.id = 1)
    (hpost : st.posts.find? (fun p => p.id == pid) = some post) :
    (edit_post pid form Method.POST true st sess).state.posts.find? (fun p => p.id == pid) =
      some { id := post.id, author := AuthorField.formText form.author, title := form.title,
             subtitle := form.subtitle, date := post.date, body := form.body,
             img_url := form.img_url } ∧
    (edit_post pid form Method.POST true st sess).state.comments = st.comments ∧
    (edit_post pid form Method.POST true st sess).state.users = st.users := by
  have hadm := is_admin_of_current st sess u hu hadmin
  rw [edit_post, admin_only_admin _ _ _ hadm]
  unfold edit_post_body
  rw [hpost]
  refine ⟨?_, rfl, rfl⟩
  exact find?_update_post st.posts pid
    (fun p =>
      { p with title := form.title, subtitle := form.subtitle, img_url := form.img_url,
               author := AuthorField.formText form.author, body := form.body })
    (fun p => rfl) post hpost

/-- C6: deleting a stored post as admin removes it — it is found neither by a
fetch-by-id nor in the listing — and redirects to the listing. -/
theorem claim_C6_delete_removes (st : AppState) (sess : Session) (pid : Nat)
    (u : User) (post : BlogPost)
    (hu : current_user st sess = some u) (hadmin : u.id = 1)
    (hpost : st.posts.find? (fun p => p.id == pid) = some post)
    (hnd : (st.posts.map (fun p => p.id)).Nodup) :
    (delete_post pid st sess).state.posts.find? (fun p => p.id == pid) = none ∧
    (∀ q ∈ get_all_posts (delete_post pid st sess).state, q.id ≠ pid) ∧
    (delete_post pid st sess).response = Response.redirect "get_all_posts" := by
  have hadm := is_admin_of_current st sess u hu hadmin
  rw [delete_post, admin_only_admin _ _ _ hadm]
  unfold delete_post_body
  rw [hpost]
  have hfind : (st.posts.eraseP (fun p => p.id == pid)).find? (fun p => p.id == pid) = none :=
    find?_eraseP_nodup st.posts pid hnd
  refine ⟨hfind, ?_, rfl⟩
  intro q hq
  have hnm := List.find?_eq_none.mp hfind q hq
  simpa using hnm

/-- C8: with no post stored under the id, the admin-reachable edit and delete
handlers make no not-found check: each dereferences the absent record and
raises an unhandled fault, leaving the store untouched. -/
theorem claim_C8_missing_post_fault (st : AppState) (sess : Session) (pid : Nat)
    (form : CreatePostForm) (method : Method) (valid : Bool) (u : User)
    (hu : current_user st sess = some u) (hadmin : u.id = 1)
    (hpost : st.posts.find? (fun p => p.id == pid) = none) :
    ((edit_post pid form method valid st sess).response =
        Response.internalError "AttributeError: NoneType has no attribute title" ∧
     (edit_post pid form method valid st sess).state = st) ∧
    ((delete_post pid st sess).response =
        Response.internalError "UnmappedInstanceError: NoneType is not mapped" ∧
     (delete_post pid st sess).state = st) := by
  have hadm := is_admin_of_current st sess u hu hadmin
  rw [edit_post, delete_post, admin_only_admin _ _ _ hadm, admin_only_admin _ _ _ hadm]
  unfold edit_post_body delete_post_body
  rw [hpost]
  exact ⟨⟨rfl, rfl⟩, ⟨rfl, rfl⟩⟩

/-- C2: registering a fresh email persists exactly one new user carrying the
salted hash of the submitted password and authenticates the session as it;
an immediately following registration with the same email flashes the
duplicate notice, redirects to login, persists no user, and leaves the first
account's stored hash unchanged. -/
theorem claim_C2_register_duplicate (st : AppState) (sess : Session)
    (form1 form2 : RegisterForm) (salt1 salt2 : String)
    (hemail : form2.email = form1.email)
    (h0 : st.users.find? (fun u => u.email == form1.email) = none) :
    (register form1 Method.POST true salt1 st sess).response =
      Response.redirect "get_all_posts" ∧
    (register form1 Method.POST true salt1 st sess).state.users =
      st.users ++ [User.mk st.next_user_id form1.email
        (generate_password_hash form1.password salt1) form1.name] ∧
    (register form1 Method.POST true salt1 st sess).session = some st.next_user_id ∧
    (register form2 Method.POST true salt2
        (register form1 Method.POST true salt1 st sess).state
        (register form1 Method.POST true salt1 st sess).session).response =
      Response.redirect "login" ∧
    (register form2 Method.POST true salt2
        (register form1 Method.POST true salt1 st sess).state
        (register form1 Method.POST true salt1 st sess).session).flashes =
      ["You have already signed up with that email, log in instead!"] ∧
    (register form2 Method.POST true salt2
        (register form1 Method.POST true salt1 st sess).state
        (register form1 Method.POST true salt1 st sess).session).state.users =
      (register form1 Method.POST true salt1 st sess).state.users ∧
    ((register form2 Method.POST true salt2
        (register form1 Method.POST true salt1 st sess).state
        (register form1 Method.POST true salt1 st sess).session).state.users.find?
          (fun u => u.email == form1.email)).map (fun u => u.password) =
      some (generate_password_hash form1.password salt1) := by
  have h1 : register form1 Method.POST true salt1 st sess =
      { state := { st with
          users := st.users ++ [User.mk st.next_user_id form1.email
            (generate_password_hash form1.password salt1) form1.name],
          next_user_id := st.next_user_id + 1 },
        session := some st.next_user_id,
        response := Response.redirect "get_all_posts", flashes := [] } := by
    unfold register
    rw [h0]
    rfl
  have hfind1 : ((st.users ++ [User.mk st.next_user_id form1.email
        (generate_password_hash form1.password salt1) form1.name]).find?
          (fun u => u.email == form1.email)) =
      some (User.mk st.next_user_id form1.email
        (generate_password_hash form1.password salt1) form1.name) := by
    rw [find?_append_none _ _ _ h0]
    simp [List.find?]
  have h2 : register form2 Method.POST true salt2
      { st with
        users := st.users ++ [User.mk st.next_user_id form1.email
          (generate_password_hash form1.password salt1) form1.name],
        next_user_id := st.next_user_id + 1 }
      (some st.next_user_id) =
      { state := { st with
          users := st.users ++ [User.mk st.next_user_id form1.email
            (generate_password_hash form1.password salt1) form1.name],
          next_user_id := st.next_user_id + 1 },
        session := some st.next_user_id,
        response := Response.redirect "login",
        flashes := ["You have already signed up with that email, log in instead!"] } := by
    unfold register
    rw [show ({ st with
          users := st.users ++ [User.mk st.next_user_id form1.email
            (generate_password_hash form1.password salt1) form1.name],
          next_user_id := st.next_user_id + 1 } : AppState).users =
        st.users ++ [User.mk st.next_user_id form1.email
          (generate_password_hash form1.password salt1) form1.name] from rfl,
      hemail, hfind1]
    rfl
  refine ⟨?_, ?_, ?_, ?_, ?_, ?_, ?_⟩ <;>
    simp only [h1, h2, hfind1, Option.map_some]
  all_goals rfl

/-- Witness for C2: on an empty store, Amy registers, then a second
registration with her email is turned away and her stored hash is intact. -/
theorem claim_C2_register_duplicate_witness :
    ((AppState.mk [] [] [] 1 1 1).users.find? (fun u => u.email == "amy@blog.test") = none) ∧
    (register ⟨"amy@blog.test", "Amy2", "pw2"⟩ Method.POST true "s2"
        (register ⟨"amy@blog.test", "Amy", "pw1"⟩ Method.POST true "s1"
          (AppState.mk [] [] [] 1 1 1) none).state
        (register ⟨"amy@blog.test", "Amy", "pw1"⟩ Method.POST true "s1"
          (AppState.mk [] [] [] 1 1 1) none).session).response = Response.redirect "login" ∧
    ((register ⟨"amy@blog.test", "Amy2", "pw2"⟩ Method.POST true "s2"
        (register ⟨"amy@blog.test", "Amy", "pw1"⟩ Method.POST true "s1"
          (AppState.mk [] [] [] 1 1 1) none).state
        (register ⟨"amy@blog.test", "Amy", "pw1"⟩ Method.POST true "s1"
          (AppState.mk [] [] [] 1 1 1) none).session).state.users.find?
            (fun u => u.email == "amy@blog.test")).map (fun u => u.password) =
      some (generate_password_hash "pw1" "s1") :=
  ⟨by decide,
   (claim_C2_register_duplicate (AppState.mk [] [] [] 1 1 1) none
      ⟨"amy@blog.test", "Amy", "pw1"⟩ ⟨"amy@blog.test", "Amy2", "pw2"⟩ "s1" "s2" rfl
      (by decide)).2.2.2.1,
   (claim_C2_register_duplicate (AppState.mk [] [] [] 1 1 1) none
      ⟨"amy@blog.test", "Amy", "pw1"⟩ ⟨"amy@blog.test", "Amy2", "pw2"⟩ "s1" "s2" rfl
      (by decide)).2.2.2.2.2.2⟩

/-- Witness for C5: the admin edits the sample post; the stored record keeps
its id and date and carries the five submitted fields. -/
theorem claim_C5_edit_changes_five_fields_witness :
    (current_user sampleState (some 1) = some adminUser ∧ adminUser.id = 1 ∧
     sampleState.posts.find? (fun p => p.id == 1) = some samplePost) ∧
    (edit_post 1 sampleForm Method.POST true sampleState (some 1)).state.posts.find?
        (fun p => p.id == 1) =
      some { id := samplePost.id, author := AuthorField.formText sampleForm.author,
             title := sampleForm.title, subtitle := sampleForm.subtitle,
             date := samplePost.date, body := sampleForm.body,
             img_url := sampleForm.img_url } :=
  ⟨⟨by decide, by decide, by decide⟩,
   (claim_C5_edit_changes_five_fields sampleState (some 1) 1 sampleForm adminUser samplePost
      (by decide) (by decide) (by decide)).1⟩

/-- Witness for C6: the admin deletes the sample post and a fetch-by-id then
finds nothing. -/
theorem claim_C6_delete_removes_witness :
    (sampleState.posts.find? (fun p => p.id == 1) = some samplePost ∧
     (sampleState.posts.map (fun p => p.id)).Nodup) ∧
    (delete_post 1 sampleState (some 1)).state.posts.find? (fun p => p.id == 1) = none ∧
    (delete_post 1 sampleState (some 1)).response = Response.redirect "get_all_posts" :=
  ⟨⟨by decide, by decide⟩,
   (claim_C6_delete_removes sampleState (some 1) 1 adminUser samplePost (by decide) (by decide)
      (by decide) (by decide)).1,
   (claim_C6_delete_removes sampleState (some 1) 1 adminUser samplePost (by decide) (by decide)
      (by decide) (by decide)).2.2⟩

/-- Witness for C8: with no post 99 stored, the admin-reached edit and delete
handlers raise unhandled faults. -/
theorem claim_C8_missing_post_fault_witness :
    (sampleState.posts.find? (fun p => p.id == 99) = none) ∧
    (edit_post 99 sampleForm Method.GET false sampleState (some 1)).response =
      Response.internalError "AttributeError: NoneType has no attribute title" ∧
    (delete_post 99 sampleState (some 1)).response =
      Response.internalError "UnmappedInstanceError: NoneType is not mapped" :=
  ⟨by decide,
   ((claim_C8_missing_post_fault sampleState (some 1) 99 sampleForm Method.GET false adminUser
       (by decide) (by decide) (by decide)).1).1,
   ((claim_C8_missing_post_fault sampleState (some 1) 99 sampleForm Method.GET false adminUser
       (by decide) (by decide) (by decide)).2).1⟩
